import Mathlib

/-!
Formal model of the hb_prototype battle engine.

Python sources are shallowly embedded as executable Lean definitions:

* `src/effects/types.py`, `src/effects/base.py`, `src/effects/manager.py`
  (top level declarations `EffectDuration`, `Effect`, `StatModifier`,
  `EffectManager`, ...);
* `src/game_mechanics.py` (`GameMechanics` namespace);
* `src/pillz/pillz.py` and the concrete pillz classes (`PillzType`,
  `Pillz`, ...);
* `src/game/round.py` (`Game` namespace);
* `src/game_core.py` (`GameCore` namespace);
* `src/battle_state.py` (`BState` namespace);
* `src/battle_system.py` (`BattleSystem` namespace).

Modelling conventions:

* Python `random.randint` draws are supplied from the outside, either as a
  single `draw : ℤ` argument or as a stream `draws : List ℤ`; theorems that
  need the `randint` contract assume the supplied draw lies in the stated
  interval.
* Mutation of an object becomes a function returning the updated value; a
  method that can raise returns the updated object together with an
  `Except` value, and the object handed back on the error path is the
  object as it stood when the exception was raised.
* Python `dict`s keyed by fighter ids become association lists, preserving
  insertion order; `float` arithmetic is modelled by `ℚ`; Python `round`
  (banker's rounding, half to even) is `pyRound`; Python `//` is `Int.fdiv`.
-/

/-- Python `round`: round half to even, as used by `round(x)` on a float. -/
def pyRound (q : ℚ) : ℤ :=
  let f := q.floor
  let r := q - (f : ℚ)
  if r < 1/2 then f
  else if 1/2 < r then f + 1
  else if f % 2 = 0 then f else f + 1

/-- Truthiness of an optional Python string (`None` and `""` are falsy). -/
def pyTruthyStr (o : Option String) : Bool :=
  match o with
  | none => false
  | some s => !(s == "")

/-- Python substring test `pat in s`. -/
def containsSub (s pat : String) : Bool :=
  (s.splitOn pat).length > 1

/-! ## src/effects/types.py -/

/-- `EffectDuration` from src/effects/types.py. -/
inductive EffectDuration where
  | CURRENT
  | NEXT
  | PERMANENT
deriving DecidableEq, Repr

/-- `EffectTarget` from src/effects/types.py. -/
inductive EffectTarget where
  | SELF
  | OPPONENT
deriving DecidableEq, Repr

/-- `StatType` from src/effects/types.py. -/
inductive StatType where
  | DAMAGE
  | RESISTANCE
deriving DecidableEq, Repr

/-- `ActivationCondition` from src/effects/types.py (three values only). -/
inductive ActivationCondition where
  | ANY
  | WIN_ONLY
  | LOSE_ONLY
deriving DecidableEq, Repr

/-- `EffectValue = Union[Literal["HALF"], int]` from src/effects/types.py. -/
inductive EffectValue where
  | HALF
  | int (n : ℤ)
deriving DecidableEq, Repr

/-! ## src/effects/base.py -/

/-- `StatModifier` from src/effects/base.py. -/
structure StatModifier where
  stat_type : StatType
  value : EffectValue
  is_random : Bool := false
  cached_random_value : Option ℤ := none
  testing_mode : Bool := false
deriving DecidableEq, Repr

/-- Upper bound handed to `random.randint(1, ...)` in
`StatModifier.get_value`: `self.value if isinstance(self.value, int) else 10`. -/
def randintUpper (v : EffectValue) : ℤ :=
  match v with
  | .int n => n
  | .HALF => 10

/-- `StatModifier.get_value` from src/effects/base.py.  The fresh
`random.randint(1, upper)` draw is supplied as `draw`; the result is the
returned value together with the (possibly) updated modifier. -/
def StatModifier.get_value (m : StatModifier) (draw : ℤ) : ℤ × StatModifier :=
  if !m.is_random then
    (match m.value with
     | .int n => n
     | .HALF => -1, m)
  else if m.testing_mode then
    (draw, m)
  else
    match m.cached_random_value with
    | some v => (v, m)
    | none => (draw, { m with cached_random_value := some draw })

/-- Whether a `get_value` call consumes a fresh random draw. -/
def StatModifier.consumesDraw (m : StatModifier) : Bool :=
  m.is_random && (m.testing_mode || m.cached_random_value == none)

/-- `get_value` taking its draw from the head of a stream of random values. -/
def StatModifier.get_value_s (m : StatModifier) (draws : List ℤ) :
    ℤ × StatModifier × List ℤ :=
  let (v, m2) := m.get_value (draws.headD 0)
  (v, m2, if m.consumesDraw then draws.tail else draws)

/-- `StatModifier.set_testing_mode` from src/effects/base.py. -/
def StatModifier.set_testing_mode (m : StatModifier) (enabled : Bool) :
    StatModifier :=
  if enabled then { m with testing_mode := enabled, cached_random_value := none }
  else { m with testing_mode := enabled }

/-- `Effect` from src/effects/base.py. -/
structure Effect where
  name : String
  duration : EffectDuration
  target : EffectTarget
  activation : ActivationCondition
  modifiers : List StatModifier
  is_active : Bool := false
  pending_condition : Option String := none
  applied_at_round : Option ℕ := none
  expires_at_round : Option ℕ := none
deriving DecidableEq, Repr

/-- `Effect.can_activate` from src/effects/base.py: the outcome is passed
as the boolean `won_round`, with the trailing `return False` kept. -/
def Effect.can_activate (e : Effect) (won_round : Bool) : Bool :=
  if e.activation = .ANY then true
  else if e.activation = .WIN_ONLY then won_round
  else if e.activation = .LOSE_ONLY then !won_round
  else false

/-- `Effect.apply` from src/effects/base.py: marks the effect active,
records the round, and sets `expires_at_round` only for `CURRENT`. -/
def Effect.apply (e : Effect) (current_round : ℕ) : Effect :=
  let e2 := { e with is_active := true, applied_at_round := some current_round }
  if e2.duration = .CURRENT then
    { e2 with expires_at_round := some current_round }
  else e2

/-- `Effect.should_expire` from src/effects/base.py. Python compares
`self.expires_at_round == current_round` where the left side may be `None`
(`None == r` is `False`). -/
def Effect.should_expire (e : Effect) (current_round : ℕ) : Bool :=
  if !e.is_active then false
  else if e.duration = .PERMANENT then false
  else e.expires_at_round == some current_round

/-! ## src/effects/manager.py -/

/-- `EffectHistoryEntry` from src/effects/manager.py. -/
structure EffectHistoryEntry where
  round_number : ℕ
  effect_name : String
  applied_value : ℤ
  stat_modified : StatType
  target_fighter : String
deriving DecidableEq, Repr

/-- Update (or insert at the back) a key of an association-list dict. -/
def setKey {α : Type} (d : List (String × α)) (k : String) (v : α) :
    List (String × α) :=
  match d with
  | [] => [(k, v)]
  | (k2, v2) :: rest =>
    if k2 = k then (k2, v) :: rest else (k2, v2) :: setKey rest k v

/-- `EffectManager` from src/effects/manager.py; the per-fighter dicts are
association lists in insertion order. -/
structure EffectManager where
  active_effects : List (String × List Effect) := []
  pending_effects : List (String × List Effect) := []
  effect_history : List EffectHistoryEntry := []
deriving DecidableEq, Repr

/-- Fresh `EffectManager()` (all dicts empty). -/
def EffectManager.init : EffectManager := {}

/-- `EffectManager.get_active_effects` from src/effects/manager.py. -/
def EffectManager.get_active_effects (m : EffectManager) (fighter_id : String) :
    List Effect :=
  (m.active_effects.lookup fighter_id).getD []

/-- `EffectManager.get_pending_effects` from src/effects/manager.py. -/
def EffectManager.get_pending_effects (m : EffectManager) (fighter_id : String) :
    List Effect :=
  (m.pending_effects.lookup fighter_id).getD []

/-- `EffectManager.add_effect` from src/effects/manager.py: both dict keys
are materialised (`setdefault` style), then the effect is appended to the
active list when its duration is `CURRENT` or `PERMANENT` and to the
pending list otherwise.  No `apply` happens here. -/
def EffectManager.add_effect (m : EffectManager) (fighter_id : String)
    (effect : Effect) : EffectManager :=
  let act := m.get_active_effects fighter_id
  let pend := m.get_pending_effects fighter_id
  if effect.duration = .CURRENT ∨ effect.duration = .PERMANENT then
    { m with
      active_effects := setKey m.active_effects fighter_id (act ++ [effect]),
      pending_effects := setKey m.pending_effects fighter_id pend }
  else
    { m with
      active_effects := setKey m.active_effects fighter_id act,
      pending_effects := setKey m.pending_effects fighter_id (pend ++ [effect]) }

/-- `EffectManager.log_effect` from src/effects/manager.py. -/
def EffectManager.log_effect (m : EffectManager) (round_number : ℕ)
    (effect : Effect) (applied_value : ℤ) (stat_modified : StatType)
    (target_fighter : String) : EffectManager :=
  { m with effect_history := m.effect_history ++
      [{ round_number := round_number, effect_name := effect.name,
         applied_value := applied_value, stat_modified := stat_modified,
         target_fighter := target_fighter }] }

/-- `EffectManager.process_round_end` from src/effects/manager.py: drop
every active effect whose `should_expire(round_number)` holds. -/
def EffectManager.process_round_end (m : EffectManager) (round_number : ℕ) :
    EffectManager :=
  { m with active_effects :=
      (m.active_effects.map
        (fun kv => (kv.1, kv.2.filter (fun e => !e.should_expire round_number)))) }

/-- `EffectManager.activate_pending_effect` from src/effects/manager.py:
move the effect from the pending list to the active list when present;
no activation-condition check is made. -/
def EffectManager.activate_pending_effect (m : EffectManager)
    (fighter_id : String) (effect : Effect) : EffectManager :=
  match m.pending_effects.lookup fighter_id with
  | none => m
  | some pend =>
    if effect ∈ pend then
      { m with
        pending_effects := setKey m.pending_effects fighter_id (pend.erase effect),
        active_effects := setKey m.active_effects fighter_id
          (m.get_active_effects fighter_id ++ [effect]) }
    else m

/-! ## src/game_mechanics.py -/

namespace GameMechanics

/-- `Move` from src/game_mechanics.py. -/
inductive Move where
  | RUSH
  | STRIKE
  | SWEEP
  | GUARD
  | GRAPPLE
deriving DecidableEq, Repr

/-- Every move, in enum order. -/
def Move.all : List Move := [.RUSH, .STRIKE, .SWEEP, .GUARD, .GRAPPLE]

/-- Python `move.name`. -/
def Move.str : Move → String
  | .RUSH => "RUSH"
  | .STRIKE => "STRIKE"
  | .SWEEP => "SWEEP"
  | .GUARD => "GUARD"
  | .GRAPPLE => "GRAPPLE"

/-- `MOVE_ADVANTAGES` from src/game_mechanics.py: the set of moves each
move beats. -/
def MOVE_ADVANTAGES : Move → List Move
  | .RUSH => [.STRIKE, .SWEEP]
  | .STRIKE => [.SWEEP, .GRAPPLE]
  | .SWEEP => [.GUARD, .GRAPPLE]
  | .GUARD => [.RUSH, .STRIKE]
  | .GRAPPLE => [.RUSH, .GUARD]

/-- `a` beats `b` in the `MOVE_ADVANTAGES` relation. -/
def beats (a b : Move) : Bool := (MOVE_ADVANTAGES a).contains b

/-- Moves that beat `m`. -/
def beatenBy (m : Move) : List Move := Move.all.filter (fun x => beats x m)

/-- `Fighter` from src/game_mechanics.py. -/
structure Fighter where
  name : String
  damage : ℤ
  resistance : ℤ
  points : ℤ := 0
deriving DecidableEq, Repr

/-- `Fighter.validate_stats` from src/game_mechanics.py. -/
def Fighter.validate_stats (damage resistance : ℤ) : Bool :=
  0 ≤ damage && damage ≤ 100 && 0 ≤ resistance && resistance ≤ 100

/-- `Fighter.__init__`: fails (raises `ValueError`) unless both stats are
within `[0, 100]`. -/
def Fighter.create (name : String) (damage resistance : ℤ) :
    Except String Fighter :=
  if Fighter.validate_stats damage resistance then
    .ok { name := name, damage := damage, resistance := resistance }
  else
    .error "Damage and Resistance must be between 0 and 100"

/-- `Fighter.calculate_effective_damage` from src/game_mechanics.py:
`round(self.damage * (1 - defender.resistance/100))`. -/
def Fighter.calculate_effective_damage (f defender : Fighter) : ℤ :=
  pyRound ((f.damage : ℚ) * (1 - (defender.resistance : ℚ) / 100))

/-- `GameRound` from src/game_mechanics.py. -/
structure GameRound where
  fighter1 : Fighter
  fighter2 : Fighter
  move1 : Option Move := none
  move2 : Option Move := none
deriving DecidableEq, Repr

/-- `GameRound.resolve_round` from src/game_mechanics.py.  The result is
the object state after the call together with the returned message, or the
raised `ValueError` when a move is unset (in which case nothing has been
mutated). -/
def GameRound.resolve_round (g : GameRound) :
    GameRound × Except String String :=
  match g.move1, g.move2 with
  | some m1, some m2 =>
    if m1 = m2 then
      (g, .ok ("Draw! Both fighters chose " ++ m1.str))
    else if (MOVE_ADVANTAGES m1).contains m2 then
      let damage := g.fighter1.calculate_effective_damage g.fighter2
      ({ g with fighter1 :=
          { g.fighter1 with points := g.fighter1.points + damage } },
       .ok (g.fighter1.name ++ " wins with " ++ m1.str ++ " against " ++
            m2.str ++ ", dealing " ++ toString damage ++ " points!"))
    else if (MOVE_ADVANTAGES m2).contains m1 then
      let damage := g.fighter2.calculate_effective_damage g.fighter1
      ({ g with fighter2 :=
          { g.fighter2 with points := g.fighter2.points + damage } },
       .ok (g.fighter2.name ++ " wins with " ++ m2.str ++ " against " ++
            m1.str ++ ", dealing " ++ toString damage ++ " points!"))
    else
      (g, .ok "No advantage - Round drawn!")
  | _, _ => (g, .error "Moves must be set before resolving round")

end GameMechanics

/-! ## src/pillz/types.py and src/pillz/pillz.py -/

/-- `PillzType` from src/pillz/types.py. -/
inductive PillzType where
  | SOUTH_PACIFIC
  | JURASSIC
  | GODZILLA_CAKE
  | NORDIC_SHIELD
  | KISS
  | SAILOR_MOON
  | APRIL
  | OCTOBER
  | GOTHAM
  | ALIEN_ATTACK
  | BURNING_MAN
  | HAWAII_HORROR
deriving DecidableEq, Repr

/-- `PillzActivationType` from src/pillz/types.py. -/
inductive PillzActivationType where
  | ANY_MOVE
  | WIN_MOVE_ONLY
  | LOSE_MOVE_ONLY
deriving DecidableEq, Repr

/-- `Pillz` from src/pillz/pillz.py; `effect` is the `_effect` cache. -/
structure Pillz where
  type : PillzType
  name : String
  activation_type : PillzActivationType
  description : String
  effect : Option Effect := none
deriving DecidableEq, Repr

/-- `Pillz.can_activate` from src/pillz/pillz.py: the gating check against
the round outcome, with the trailing `return False` kept. -/
def Pillz.can_activate (p : Pillz) (won_round : Bool) : Bool :=
  if p.activation_type = .ANY_MOVE then true
  else if p.activation_type = .WIN_MOVE_ONLY then won_round
  else if p.activation_type = .LOSE_MOVE_ONLY then !won_round
  else false

/-- `Pillz.activate` from src/pillz/pillz.py: when the gating check fails
no effect is produced; otherwise the `_effect` cache is filled from
`initialize_effect` (whose result is supplied as `made`, since the
concrete pillz classes build it, some with random variant choices) and
returned. -/
def Pillz.activate (p : Pillz) (made : Effect) (won_round : Bool) :
    Option Effect × Pillz :=
  if !p.can_activate won_round then (none, p)
  else
    match p.effect with
    | none => (some made, { p with effect := some made })
    | some e => (some e, p)

/-- The `Effect` built by `SouthPacificPillz.initialize_effect`
(src/pillz/complex_pillz.py): Dexterity, duration `NEXT`. -/
def dexterityEffect : Effect :=
  { name := "Dexterity", duration := .NEXT, target := .SELF,
    activation := .ANY,
    modifiers := [{ stat_type := .DAMAGE, value := .int 2 }],
    pending_condition := some "WIN" }

/-- The `Effect` built by `AprilPillz._create_dont_cry_effect`
(src/pillz/complex_pillz.py): permanent, `LOSE_ONLY` activation.  The
apostrophe of the Python effect name is left out. -/
def dontCryEffect : Effect :=
  { name := "Rainbow(Dont Cry)", duration := .PERMANENT, target := .SELF,
    activation := .LOSE_ONLY,
    modifiers := [{ stat_type := .RESISTANCE, value := .int 10 }] }

/-- The `Effect` built by `JurassicPillz.initialize_effect`
(src/pillz/complex_pillz.py): Spike, duration `CURRENT`. -/
def spikeEffect : Effect :=
  { name := "Spike", duration := .CURRENT, target := .OPPONENT,
    activation := .LOSE_ONLY,
    modifiers := [{ stat_type := .DAMAGE, value := .int (-1) }] }

/-- `AprilPillz` (src/pillz/complex_pillz.py) with an empty effect cache. -/
def aprilPillz : Pillz :=
  { type := .APRIL, name := "April", activation_type := .ANY_MOVE,
    description := "Takes a random effect out of: Brave, Resolve, Dont Cry" }

/-! ## src/game/round.py -/

namespace Game

/-- `RoundState` from src/game/round.py. -/
structure RoundState where
  fighter1_move : Option GameMechanics.Move := none
  fighter2_move : Option GameMechanics.Move := none
  fighter1_pillz : Option Pillz := none
  fighter2_pillz : Option Pillz := none
  round_winner : Option String := none
  damage_dealt : ℤ := 0
deriving DecidableEq, Repr

/-- `Round` from src/game/round.py. -/
structure Round where
  fighter1 : GameMechanics.Fighter
  fighter2 : GameMechanics.Fighter
  round_number : ℕ
  effect_manager : EffectManager := .init
  state : RoundState := {}
deriving DecidableEq, Repr

/-- `Round._resolve_moves` from src/game/round.py: winner and loser ids
from the two (already set) moves. -/
def Round.resolve_moves (r : Round) (move1 move2 : GameMechanics.Move) :
    Option String × Option String :=
  if move1 = move2 then (none, none)
  else if (GameMechanics.MOVE_ADVANTAGES move1).contains move2 then
    (some r.fighter1.name, some r.fighter2.name)
  else if (GameMechanics.MOVE_ADVANTAGES move2).contains move1 then
    (some r.fighter2.name, some r.fighter1.name)
  else (none, none)

/-- `Round._apply_effects` from src/game/round.py: each set pillz is
activated against `won_round = (winner_id == fighter.name)`; a produced
effect goes to the effect manager via `add_effect`.  `made1`/`made2` stand
for the respective `initialize_effect` results. -/
def Round.apply_effects (r : Round) (made1 made2 : Effect)
    (winner_id : Option String) : Round :=
  let r1 :=
    match r.state.fighter1_pillz with
    | none => r
    | some p =>
      let ep := p.activate made1 (winner_id == some r.fighter1.name)
      let r2 := { r with state := { r.state with fighter1_pillz := some ep.2 } }
      match ep.1 with
      | some e =>
        { r2 with effect_manager := r2.effect_manager.add_effect r.fighter1.name e }
      | none => r2
  match r1.state.fighter2_pillz with
  | none => r1
  | some p =>
    let ep := p.activate made2 (winner_id == some r1.fighter2.name)
    let r2 := { r1 with state := { r1.state with fighter2_pillz := some ep.2 } }
    match ep.1 with
    | some e =>
      { r2 with effect_manager := r2.effect_manager.add_effect r1.fighter2.name e }
    | none => r2

/-- One step of the modifier loops of `Round._calculate_damage`: for a
modifier of the selected stat, `get_value()` is called once, and when the
result is not the `-1` HALF sentinel it is called a second time for the
addition (as in the Python source); `//= 2` uses floor division.  Returns
the updated running value, the updated modifier list, and the remaining
draw stream. -/
def applyModifiers (stat : StatType) :
    ℤ → List StatModifier → List ℤ → ℤ × List StatModifier × List ℤ
  | val, [], draws => (val, [], draws)
  | val, m :: rest, draws =>
    if m.stat_type = stat then
      let s1 := m.get_value_s draws
      if s1.1 = -1 then
        let out := applyModifiers stat (Int.fdiv val 2) rest s1.2.2
        (out.1, s1.2.1 :: out.2.1, out.2.2)
      else
        let s2 := s1.2.1.get_value_s s1.2.2
        let out := applyModifiers stat (val + s2.1) rest s2.2.2
        (out.1, s2.2.1 :: out.2.1, out.2.2)
    else
      let out := applyModifiers stat val rest draws
      (out.1, m :: out.2.1, out.2.2)

/-- The modifier loops of `Round._calculate_damage` over a list of active
effects. -/
def applyEffectsModifiers (stat : StatType) :
    ℤ → List Effect → List ℤ → ℤ × List Effect × List ℤ
  | val, [], draws => (val, [], draws)
  | val, e :: rest, draws =>
    let step := applyModifiers stat val e.modifiers draws
    let out := applyEffectsModifiers stat step.1 rest step.2.2
    (out.1, { e with modifiers := step.2.1 } :: out.2.1, out.2.2)

/-- `Round._calculate_damage` from src/game/round.py: additive damage and
resistance modifiers (with the `-1` value halving via floor division) are
folded into the base stats, then
`round(modified_damage * (1 - modified_resistance/100))` is returned -
with no lower bound.  Also returns the effect manager with the updated
modifier caches and the remaining draw stream. -/
def Round.calculate_damage (r : Round)
    (attacker defender : GameMechanics.Fighter) (draws : List ℤ) :
    ℤ × EffectManager × List ℤ :=
  let aeff := r.effect_manager.get_active_effects attacker.name
  let deff := r.effect_manager.get_active_effects defender.name
  let stepA := applyEffectsModifiers .DAMAGE attacker.damage aeff draws
  let stepD := applyEffectsModifiers .RESISTANCE defender.resistance deff stepA.2.2
  let modified_damage := stepA.1
  let modified_resistance := stepD.1
  let acts :=
    setKey (setKey r.effect_manager.active_effects attacker.name stepA.2.1)
      defender.name stepD.2.1
  let mgr := { r.effect_manager with active_effects := acts }
  (pyRound ((modified_damage : ℚ) * (1 - (modified_resistance : ℚ) / 100)),
   mgr, stepD.2.2)

/-- The body of `Round.resolve` after the move-completeness check has
passed (src/game/round.py lines 119-135): resolve moves, apply pillz
effects, compute and award damage when there is a winner, then expire
effects via `process_round_end`. -/
def Round.resolveBody (r : Round) (made1 made2 : Effect) (draws : List ℤ)
    (m1 m2 : GameMechanics.Move) : Round :=
  let wl := r.resolve_moves m1 m2
  let winner_id := wl.1
  let r1 := { r with state := { r.state with round_winner := winner_id } }
  let r2 := r1.apply_effects made1 made2 winner_id
  let r3 :=
    if pyTruthyStr winner_id then
      let f1wins := winner_id == some r2.fighter1.name
      let attacker := if f1wins then r2.fighter1 else r2.fighter2
      let defender := if f1wins then r2.fighter2 else r2.fighter1
      let dmg := r2.calculate_damage attacker defender draws
      let r2a := { r2 with
        state := { r2.state with damage_dealt := dmg.1 },
        effect_manager := dmg.2.1 }
      if f1wins then
        { r2a with fighter1 :=
            { r2a.fighter1 with points := r2a.fighter1.points + dmg.1 } }
      else
        { r2a with fighter2 :=
            { r2a.fighter2 with points := r2a.fighter2.points + dmg.1 } }
    else r2
  { r3 with effect_manager := r3.effect_manager.process_round_end r.round_number }

/-- `Round.resolve` from src/game/round.py.  Raises (returns `.error`,
with the round unchanged) when either move is unset; the formatted summary
string built on success is display-only and not modelled. -/
def Round.resolve (r : Round) (made1 made2 : Effect) (draws : List ℤ) :
    Round × Except String Unit :=
  match r.state.fighter1_move, r.state.fighter2_move with
  | some m1, some m2 => (r.resolveBody made1 made2 draws m1 m2, .ok ())
  | _, _ => (r, .error "Both fighters must select moves before resolution")

end Game

/-! ## src/game_core.py -/

namespace GameCore

/-- `PillzType` from src/game_core.py. -/
inductive PillzType where
  | NONE
  | SOUTH_PACIFIC
  | NORDIC_SHIELD
  | GODZILLA_CAKE
  | KISS
  | SAILOR_MOON
deriving DecidableEq, Repr

/-- `EffectType` from src/game_core.py. -/
inductive EffectType where
  | NONE
  | DAMAGE
  | RESISTANCE
  | SKIP
  | COUNTER
  | PERMANENT_DAMAGE
  | PERMANENT_RESISTANCE
deriving DecidableEq, Repr

/-- `ActivationCondition` from src/game_core.py (note the extra `ON_DRAW`
value absent from src/effects/types.py). -/
inductive ActivationCondition where
  | ALWAYS
  | ON_WIN
  | ON_LOSE
  | ON_DRAW
deriving DecidableEq, Repr

/-- `PillzEffect` from src/game_core.py.  The `round_effects` numeric
table and the function-valued `effect_modifiers` dict are not modelled;
no verified claim reads them. -/
structure PillzEffect where
  name : String
  duration : ℤ
  activation_condition : ActivationCondition
  effect_type : EffectType
  priority : ℤ
  permanent_bonus : ℚ := 0
  counters : List EffectType := []
  id : String := ""
deriving DecidableEq, Repr

/-- `PillzEffect.is_active` from src/game_core.py: permanent effects
(duration `-1`) are always active; an elapsed duration deactivates; the
activation condition is then checked against the round-result string, with
the trailing `return False` kept. -/
def PillzEffect.is_active (pe : PillzEffect) (current_round activation_round : ℤ)
    (round_result : String) : Bool :=
  if pe.duration = -1 then true
  else
    let rounds_active := current_round - activation_round
    if pe.duration ≤ rounds_active ∧ pe.duration ≠ -1 then false
    else if pe.activation_condition = .ALWAYS then true
    else if pe.activation_condition = .ON_WIN then round_result == "win"
    else if pe.activation_condition = .ON_LOSE then round_result == "lose"
    else if pe.activation_condition = .ON_DRAW then round_result == "draw"
    else false

/-- `Fighter` from src/game_core.py. -/
structure Fighter where
  name : String
  damage : ℤ
  resistance : ℤ
  score : ℚ := 0
  permanent_damage_bonus : ℚ := 0
  permanent_resistance_bonus : ℚ := 0
  active_effects : List PillzEffect := []
  effect_activation_rounds : List (String × ℤ) := []
deriving DecidableEq, Repr

/-- `Fighter.add_score` from src/game_core.py. -/
def Fighter.add_score (f : Fighter) (points : ℚ) : Fighter :=
  { f with score := f.score + points }

/-- `Fighter.get_total_damage` from src/game_core.py. -/
def Fighter.get_total_damage (f : Fighter) : ℚ :=
  (f.damage : ℚ) + f.permanent_damage_bonus

/-- `Fighter.get_total_resistance` from src/game_core.py. -/
def Fighter.get_total_resistance (f : Fighter) : ℚ :=
  (f.resistance : ℚ) + f.permanent_resistance_bonus

/-- `Fighter.update_effects` from src/game_core.py: keep the active
effects whose activation round is recorded and whose `is_active` holds,
together with their activation rounds. -/
def Fighter.update_effects (f : Fighter) (current_round : ℤ)
    (round_result : String) : Fighter :=
  let keep := f.active_effects.filter (fun e =>
    match f.effect_activation_rounds.lookup e.id with
    | some ar => e.is_active current_round ar round_result
    | none => false)
  let rounds := keep.filterMap (fun e =>
    (f.effect_activation_rounds.lookup e.id).map (fun ar => (e.id, ar)))
  { f with active_effects := keep, effect_activation_rounds := rounds }

end GameCore

/-! ## src/battle_state.py -/

namespace BState

/-- `RoundState` from src/battle_state.py. -/
structure RoundState where
  round_number : ℕ
  fighter1_move : Option String := none
  fighter2_move : Option String := none
  fighter1_effect : Option GameCore.PillzEffect := none
  fighter2_effect : Option GameCore.PillzEffect := none
  result : Option String := none
  points_gained1 : ℚ := 0
  points_gained2 : ℚ := 0
deriving DecidableEq, Repr

/-- `BattleState` from src/battle_state.py. -/
structure BattleState where
  fighter1 : GameCore.Fighter
  fighter2 : GameCore.Fighter
  current_round : ℕ
  max_rounds : ℕ
  round_history : List RoundState
  current_round_state : RoundState
deriving DecidableEq, Repr

/-- `BattleState.__init__` from src/battle_state.py: round counter starts
at 1 with `max_rounds = 6` and a fresh round state. -/
def BattleState.init (fighter1 fighter2 : GameCore.Fighter) : BattleState :=
  { fighter1 := fighter1, fighter2 := fighter2, current_round := 1,
    max_rounds := 6, round_history := [],
    current_round_state := { round_number := 1 } }

/-- `BattleState.record_move` from src/battle_state.py; the Python
identity test `fighter is self.fighter1` is modelled by the side flag. -/
def BattleState.record_move (s : BattleState) (isFighter1 : Bool)
    (move : String) : BattleState :=
  if isFighter1 then
    { s with current_round_state :=
        { s.current_round_state with fighter1_move := some move } }
  else
    { s with current_round_state :=
        { s.current_round_state with fighter2_move := some move } }

/-- `BattleState.record_effect` from src/battle_state.py. -/
def BattleState.record_effect (s : BattleState) (isFighter1 : Bool)
    (effect : Option GameCore.PillzEffect) : BattleState :=
  if isFighter1 then
    { s with current_round_state :=
        { s.current_round_state with fighter1_effect := effect } }
  else
    { s with current_round_state :=
        { s.current_round_state with fighter2_effect := effect } }

/-- `BattleState.record_result` from src/battle_state.py: fill in the
result and points, then append the round state to the history. -/
def BattleState.record_result (s : BattleState) (result : String)
    (points1 points2 : ℚ) : BattleState :=
  let rs := { s.current_round_state with
    result := some result,
    points_gained1 := points1, points_gained2 := points2 }
  { s with current_round_state := rs, round_history := s.round_history ++ [rs] }

/-- `BattleState.advance_round` from src/battle_state.py: refuse (return
`false`, state unchanged) once `current_round` has reached `max_rounds`;
otherwise increment the counter and start a fresh round state. -/
def BattleState.advance_round (s : BattleState) : BattleState × Bool :=
  if s.max_rounds ≤ s.current_round then (s, false)
  else
    ({ s with
      current_round := s.current_round + 1,
      current_round_state := { round_number := s.current_round + 1 } }, true)

/-- `BattleState.get_round_result_for_fighter` from src/battle_state.py. -/
def BattleState.get_round_result_for_fighter (s : BattleState)
    (isFighter1 : Bool) : String :=
  match s.current_round_state.result with
  | none => "none"
  | some res =>
    if res == "draw" then "draw"
    else if isFighter1 then
      if containsSub res.toLower "fighter1 wins" then "win" else "lose"
    else
      if containsSub res.toLower "fighter2 wins" then "win" else "lose"

/-- The externally driven `BattleState` operations, for reachability. -/
inductive BOp where
  | recordMove (isFighter1 : Bool) (move : String)
  | recordEffect (isFighter1 : Bool) (effect : Option GameCore.PillzEffect)
  | recordResult (result : String) (points1 points2 : ℚ)
  | advanceRound
deriving Repr

/-- Apply one `BOp` to a `BattleState` (the boolean result of
`advance_round` is discarded here). -/
def applyOp (s : BattleState) : BOp → BattleState
  | .recordMove isF1 m => s.record_move isF1 m
  | .recordEffect isF1 e => s.record_effect isF1 e
  | .recordResult res p1 p2 => s.record_result res p1 p2
  | .advanceRound => (s.advance_round).1

/-- Run a sequence of `BOp`s from a state. -/
def runOps (s : BattleState) : List BOp → BattleState
  | [] => s
  | op :: rest => runOps (applyOp s op) rest

end BState

/-! ## src/battle_system.py -/

namespace BattleSystem

/-- `move_relationships` from `BattleSystem.__init__`
(src/battle_system.py); unknown keys give the empty list. -/
def move_relationships (m : String) : List String :=
  if m == "Rush" then ["Strike", "Sweep"]
  else if m == "Strike" then ["Sweep", "Grapple"]
  else if m == "Sweep" then ["Guard", "Grapple"]
  else if m == "Guard" then ["Rush", "Strike"]
  else if m == "Grapple" then ["Rush", "Guard"]
  else []

/-- `self.moves`: the keys of `move_relationships`. -/
def moves : List String := ["Rush", "Strike", "Sweep", "Guard", "Grapple"]

/-- `BattleSystem.does_move_win` from src/battle_system.py. -/
def does_move_win (move1 move2 : String) : Bool :=
  (move_relationships move1).contains move2

/-- `BattleSystem._get_base_round_result` from src/battle_system.py. -/
def get_base_round_result (move1 move2 : String) : String :=
  if move1 == move2 then "draw"
  else if does_move_win move1 move2 then "fighter1 wins"
  else if does_move_win move2 move1 then "fighter2 wins"
  else "no effect"

/-- The per-fighter aggregated stats dict produced by
`EffectManager.process_effects` (src/effect_manager.py
`_calculate_final_stats`), read via `.get` with these defaults. -/
structure Stats where
  damage_multiplier : ℚ := 1
  resistance_multiplier : ℚ := 1
  skip_round : Bool := false
  counter_bonus : ℚ := 1
deriving DecidableEq, Repr

/-- `BattleSystem._calculate_damage` from src/battle_system.py:
`max(0, total_damage * damage_multiplier * (1 - total_resistance *
resistance_multiplier / 100))`. -/
def calculate_damage (attacker defender : GameCore.Fighter)
    (attacker_stats defender_stats : Stats) : ℚ :=
  let base_damage := attacker.get_total_damage * attacker_stats.damage_multiplier
  let resistance := defender.get_total_resistance * defender_stats.resistance_multiplier
  let damage_multiplier := 1 - resistance / 100
  let final_damage := base_damage * damage_multiplier
  max 0 final_damage

/-- The damage formula exactly as the specification words it:
`points = max(0, W.total_damage * W.damage_multiplier *
(1 - (L.total_resistance * L.resistance_multiplier) / 100))`. -/
def specPoints (w l : GameCore.Fighter) (wstats lstats : Stats) : ℚ :=
  max 0 (w.get_total_damage * wstats.damage_multiplier *
    (1 - (l.get_total_resistance * lstats.resistance_multiplier) / 100))

/-- `BattleSystem._resolve_moves` from src/battle_system.py: the move
comparison with damage and score updates, returning
`(result, points1, points2)` and the updated battle state. -/
def resolve_moves (bs : BState.BattleState) (move1 move2 : String)
    (stats1 stats2 : Stats) : (String × ℚ × ℚ) × BState.BattleState :=
  if move1 == move2 then (("Draw", 0, 0), bs)
  else if does_move_win move1 move2 then
    let points1 := calculate_damage bs.fighter1 bs.fighter2 stats1 stats2
    ((bs.fighter1.name ++ " wins", points1, 0),
     { bs with fighter1 := bs.fighter1.add_score points1 })
  else if does_move_win move2 move1 then
    let points2 := calculate_damage bs.fighter2 bs.fighter1 stats2 stats1
    ((bs.fighter2.name ++ " wins", 0, points2),
     { bs with fighter2 := bs.fighter2.add_score points2 })
  else (("No effect", 0, 0), bs)

/-- `EffectManager.cleanup_expired_effects` from src/effect_manager.py:
update both fighters' effect lists against the just-recorded result. -/
def cleanup_expired_effects (bs : BState.BattleState) : BState.BattleState :=
  let r1 := bs.get_round_result_for_fighter true
  let r2 := bs.get_round_result_for_fighter false
  { bs with
    fighter1 := bs.fighter1.update_effects (bs.current_round : ℤ) r1,
    fighter2 := bs.fighter2.update_effects (bs.current_round : ℤ) r2 }

/-- `BattleSystem.process_round` from src/battle_system.py, with the
aggregated stats of `EffectManager.process_effects` supplied as
`stats1`/`stats2`: record the moves, apply the skip-round override (a
mutual skip is scoreless; a one-sided skip hands the win to the other
fighter with normally computed damage), otherwise resolve the moves, then
record the result and clean up expired effects. -/
def process_round (bs : BState.BattleState) (move1 move2 : String)
    (stats1 stats2 : Stats) : (String × ℚ × ℚ) × BState.BattleState :=
  let bs0 := (bs.record_move true move1).record_move false move2
  let fighter1_skip := stats1.skip_round
  let fighter2_skip := stats2.skip_round
  let step :=
    if fighter1_skip && fighter2_skip then
      (("Both fighters skip (Pillz effect)", (0 : ℚ), (0 : ℚ)), bs0)
    else if fighter1_skip then
      let points2 := calculate_damage bs0.fighter2 bs0.fighter1 stats2 stats1
      ((bs0.fighter2.name ++ " wins (Opponent skipped)", 0, points2),
       { bs0 with fighter2 := bs0.fighter2.add_score points2 })
    else if fighter2_skip then
      let points1 := calculate_damage bs0.fighter1 bs0.fighter2 stats1 stats2
      ((bs0.fighter1.name ++ " wins (Opponent skipped)", points1, 0),
       { bs0 with fighter1 := bs0.fighter1.add_score points1 })
    else
      resolve_moves bs0 move1 move2 stats1 stats2
  let recorded := step.2.record_result step.1.1 step.1.2.1 step.1.2.2
  (step.1, cleanup_expired_effects recorded)

end BattleSystem

/-! ## Concrete values used to instantiate the theorems -/

/-- `won_round` as computed by `Round.resolve` /
`Round._apply_effects` (src/game/round.py): `winner_id == fighter.name`,
where `winner_id` is `None` on a drawn round. -/
def wonRoundOf (winner_id : Option String) (name : String) : Bool :=
  winner_id == some name

/-- The random `DAMAGE` modifier of the Brave effect
(`GodzillaCakePillz.initialize_effect`, src/pillz/simple_pillz.py). -/
def braveModifier : StatModifier :=
  { stat_type := .DAMAGE, value := .int 10, is_random := true }

/-- A fixed `+80 RESISTANCE` current-round effect, used as input data. -/
def cexResistanceEffect : Effect :=
  { name := "BigShield", duration := .CURRENT, target := .SELF,
    activation := .ANY,
    modifiers := [{ stat_type := .RESISTANCE, value := .int 80 }] }

/-- Attacker input for the `Round._calculate_damage` counterexample. -/
def cexAttacker : GameMechanics.Fighter :=
  { name := "A", damage := 30, resistance := 20 }

/-- Defender input for the `Round._calculate_damage` counterexample. -/
def cexDefender : GameMechanics.Fighter :=
  { name := "B", damage := 20, resistance := 30 }

/-- A round in which the defender carries the `+80 RESISTANCE` effect. -/
def cexRound : Game.Round :=
  { fighter1 := cexAttacker, fighter2 := cexDefender, round_number := 1,
    effect_manager := EffectManager.init.add_effect "B" cexResistanceEffect }

/-- Concrete fighter (src/game_core.py `Fighter`) for witnesses. -/
def fighterAlice : GameCore.Fighter :=
  { name := "Alice", damage := 30, resistance := 20 }

/-- Concrete fighter (src/game_core.py `Fighter`) for witnesses. -/
def fighterBob : GameCore.Fighter :=
  { name := "Bob", damage := 20, resistance := 30 }

/-- A fresh battle state between the two concrete fighters. -/
def bsEx : BState.BattleState := BState.BattleState.init fighterAlice fighterBob

/-- Aggregated stats with an active skip flag. -/
def skipStats : BattleSystem.Stats := { skip_round := true }

/-- Aggregated stats with all defaults. -/
def defaultStats : BattleSystem.Stats := {}

/-- Aggregated stats with a large resistance multiplier (effective
resistance above 100). -/
def highResStats : BattleSystem.Stats := { resistance_multiplier := 6 }

/-- The `BattleState` invariant: the round counter stays within
`[1, max_rounds]` with `max_rounds = 6`, the working round state carries
the current round number, and every recorded round number lies in
`[1, 6]`. -/
def BState.Inv (s : BState.BattleState) : Prop :=
  1 ≤ s.current_round ∧ s.current_round ≤ s.max_rounds ∧ s.max_rounds = 6 ∧
  s.current_round_state.round_number = s.current_round ∧
  ∀ rs ∈ s.round_history, 1 ≤ rs.round_number ∧ rs.round_number ≤ 6

/-! ## Helper lemmas -/

/-- Looking up a key just written by `setKey` returns the written value. -/
theorem lookup_setKey_self {α : Type} (d : List (String × α)) (k : String)
    (v : α) : (setKey d k v).lookup k = some v := by
  induction d with
  | nil => simp [setKey, List.lookup]
  | cons kv rest ih =>
    obtain ⟨k2, v2⟩ := kv
    by_cases h : k2 = k
    · subst h
      simp [setKey, List.lookup]
    · have hne : (k == k2) = false := by
        simp [beq_iff_eq]
        exact fun hk => h hk.symm
      simp [setKey, h, List.lookup, hne, ih]

/-- `add_effect` appends to the active list exactly for `CURRENT` and
`PERMANENT` durations. -/
theorem add_effect_active_eq (m : EffectManager) (fid : String) (e : Effect) :
    (m.add_effect fid e).get_active_effects fid =
      (if e.duration = .CURRENT ∨ e.duration = .PERMANENT
       then m.get_active_effects fid ++ [e]
       else m.get_active_effects fid) := by
  unfold EffectManager.add_effect
  split
  · next h =>
    simp [h, EffectManager.get_active_effects, lookup_setKey_self]
  · next h =>
    simp [h, EffectManager.get_active_effects, lookup_setKey_self]

/-- `add_effect` appends to the pending list exactly for `NEXT` duration. -/
theorem add_effect_pending_eq (m : EffectManager) (fid : String) (e : Effect) :
    (m.add_effect fid e).get_pending_effects fid =
      (if e.duration = .CURRENT ∨ e.duration = .PERMANENT
       then m.get_pending_effects fid
       else m.get_pending_effects fid ++ [e]) := by
  unfold EffectManager.add_effect
  split
  · next h =>
    simp [h, EffectManager.get_pending_effects, lookup_setKey_self]
  · next h =>
    simp [h, EffectManager.get_pending_effects, lookup_setKey_self]

/-! ## Claim C1 -/

/-- Claim C1 (corrected): `Effect.apply(r)` marks the effect active with
`applied_at_round = r` and sets `expires_at_round = r` only when the
duration is `CURRENT`; for `NEXT` (and `PERMANENT`) it leaves
`expires_at_round` unchanged - `None` for a fresh effect - so no
`expires_at_round = r+1` is ever written; and `should_expire(r2)` holds
exactly when the effect is active, not `PERMANENT`, and
`expires_at_round == r2`. -/
theorem effect_apply_should_expire_spec (e : Effect) (r r2 : ℕ) :
    (e.apply r).is_active = true ∧
    (e.apply r).applied_at_round = some r ∧
    (e.apply r).expires_at_round =
      (if e.duration = .CURRENT then some r else e.expires_at_round) ∧
    e.should_expire r2 =
      (e.is_active && !(e.duration == .PERMANENT) &&
        (e.expires_at_round == some r2)) := by
  cases hd : e.duration <;> cases h : e.is_active <;>
    simp [Effect.apply, Effect.should_expire, hd, h]

/-- Claim C1 counterexample: the `NEXT`-duration Dexterity effect applied
in round 1 does not get `expires_at_round = 2` and does not expire in
round 2, contrary to the claim. -/
theorem next_effect_no_expiry_cex :
    ¬(((dexterityEffect.apply 1).expires_at_round = some 2) ∧
      (dexterityEffect.apply 1).should_expire 2 = true) := by
  decide

/-! ## Claim C3 -/

/-- Claim C3 (corrected): `EffectManager.add_effect` places a `CURRENT` or
`PERMANENT` effect in the active set and a `NEXT` effect in the pending
set, but never calls `apply(current_round)`: the stored effect is the
argument itself, completely unmodified, and the history is untouched. -/
theorem add_effect_placement (m : EffectManager) (fid : String) (e : Effect) :
    (m.add_effect fid e).get_active_effects fid =
      (if e.duration = .CURRENT ∨ e.duration = .PERMANENT
       then m.get_active_effects fid ++ [e]
       else m.get_active_effects fid) ∧
    (m.add_effect fid e).get_pending_effects fid =
      (if e.duration = .CURRENT ∨ e.duration = .PERMANENT
       then m.get_pending_effects fid
       else m.get_pending_effects fid ++ [e]) ∧
    (m.add_effect fid e).effect_history = m.effect_history := by
  refine ⟨add_effect_active_eq m fid e, add_effect_pending_eq m fid e, ?_⟩
  unfold EffectManager.add_effect
  split <;> rfl

/-- Claim C3 counterexample: adding the `CURRENT`-duration Spike effect
stores it in the active set still un-applied (`is_active = false`,
`applied_at_round = None`), so `add_effect` did not call `apply`. -/
theorem add_effect_no_apply_cex :
    (EffectManager.init.add_effect "f1" spikeEffect).get_active_effects "f1" =
      [spikeEffect] ∧
    spikeEffect.is_active = false ∧
    spikeEffect.applied_at_round = none ∧
    ((EffectManager.init.add_effect "f1" spikeEffect).get_active_effects
        "f1").all (fun e => !e.is_active) = true := by
  decide

/-! ## Claim C4 -/

/-- Claim C4 (corrected): the gating check alone decides whether a pillz
invocation produces an `Effect` (`Pillz.activate` yields nothing when
gating fails); once gating passes, the produced effect's placement is
decided solely by its duration - `CURRENT`/`PERMANENT` effects enter the
active set immediately and `NEXT` effects the pending set - with the
effect's own `activation_condition` never consulted. -/
theorem pillz_double_gating (p : Pillz) (made : Effect) (won : Bool)
    (m : EffectManager) (fid : String) (e : Effect) :
    (p.can_activate won = false → p.activate made won = (none, p)) ∧
    (p.can_activate won = true →
      (p.activate made won).1 = some (p.effect.getD made)) ∧
    ((e.duration = .CURRENT ∨ e.duration = .PERMANENT) →
      (m.add_effect fid e).get_active_effects fid =
        m.get_active_effects fid ++ [e]) ∧
    (e.duration = .NEXT →
      (m.add_effect fid e).get_pending_effects fid =
        m.get_pending_effects fid ++ [e] ∧
      (m.add_effect fid e).get_active_effects fid =
        m.get_active_effects fid) := by
  refine ⟨?_, ?_, ?_, ?_⟩
  · intro h
    unfold Pillz.activate
    simp [h]
  · intro h
    unfold Pillz.activate
    cases hc : p.effect <;> simp [h, hc, Option.getD]
  · intro h
    rw [add_effect_active_eq]
    simp [h]
  · intro h
    have hnot : ¬(e.duration = .CURRENT ∨ e.duration = .PERMANENT) := by
      simp [h]
    rw [add_effect_pending_eq, add_effect_active_eq]
    simp [hnot]

/-- Claim C4 witness: the April pillz, gated `ANY_MOVE`, produces its
Dont-Cry effect on a won round. -/
theorem pillz_double_gating_witness :
    (aprilPillz.activate dontCryEffect true).1 =
      some (aprilPillz.effect.getD dontCryEffect) :=
  (pillz_double_gating aprilPillz dontCryEffect true EffectManager.init "A"
    dontCryEffect).2.1 (by decide)

/-- Claim C4 counterexample: on a won round the April pillz (gating
`ANY_MOVE`) produces the permanent Dont-Cry effect whose own
`LOSE_ONLY` condition rejects the outcome, yet the effect lands in the
active set immediately - activation is not conditioned on the effect's
own `activation_condition`. -/
theorem gated_effect_active_despite_condition_cex :
    (aprilPillz.activate dontCryEffect true).1 = some dontCryEffect ∧
    dontCryEffect.can_activate true = false ∧
    dontCryEffect ∈ (EffectManager.init.add_effect "Alice"
      dontCryEffect).get_active_effects "Alice" := by
  decide

/-! ## Claim C5 -/

/-- Claim C5 (corrected): `Effect.can_activate` takes a boolean
`won_round` (a drawn round arrives as `won_round = false`): `ANY` is
always true, `WIN_ONLY` is true exactly when the round was won, and
`LOSE_ONLY` is true exactly when it was not won - hence true on a draw;
the `ActivationCondition` of src/effects/types.py has no `DRAW_ONLY`
value at all (only game_core's separate `PillzEffect.is_active` knows
`ON_DRAW`, checking `round_result == "draw"` for non-permanent effects
within their duration). -/
theorem can_activate_spec (e : Effect) (w : Bool)
    (pe : GameCore.PillzEffect) (cr ar : ℤ) (rr : String) :
    e.can_activate w =
      (match e.activation with
       | .ANY => true
       | .WIN_ONLY => w
       | .LOSE_ONLY => !w) ∧
    (∀ c : ActivationCondition, c = .ANY ∨ c = .WIN_ONLY ∨ c = .LOSE_ONLY) ∧
    pe.is_active cr ar rr =
      (if pe.duration = -1 then true
       else if pe.duration ≤ cr - ar then false
       else
         match pe.activation_condition with
         | .ALWAYS => true
         | .ON_WIN => rr == "win"
         | .ON_LOSE => rr == "lose"
         | .ON_DRAW => rr == "draw") := by
  refine ⟨?_, ?_, ?_⟩
  · unfold Effect.can_activate
    cases e.activation <;> simp
  · intro c
    cases c <;> simp
  · unfold GameCore.PillzEffect.is_active
    by_cases hd : pe.duration = -1
    · simp [hd]
    · by_cases hle : pe.duration ≤ cr - ar
      · simp [hd, hle]
      · cases pe.activation_condition <;> simp [hd, hle]

/-- Claim C5 counterexample: a `LOSE_ONLY` effect evaluated on a drawn
round (winner id `None`, so `won_round = false`) activates, whereas the
claim requires `false` on a draw. -/
theorem lose_only_true_on_draw_cex :
    dontCryEffect.activation = .LOSE_ONLY ∧
    wonRoundOf none "Alice" = false ∧
    dontCryEffect.can_activate (wonRoundOf none "Alice") = true := by
  decide

/-! ## Claim C8 -/

/-- Claim C8 (confirmed): the five-move beats-relation is a regular
tournament - every move beats exactly 2 moves and is beaten by exactly 2,
the two sets are disjoint and cover the other 4 moves; every distinct pair
has exactly one winner, and `_get_base_round_result` never returns the
defensive `"no effect"` for moves of the catalogue. -/
theorem move_graph_regular_tournament :
    (GameMechanics.Move.all.all fun m =>
      ((GameMechanics.MOVE_ADVANTAGES m).length == 2) &&
      ((GameMechanics.beatenBy m).length == 2) &&
      (GameMechanics.Move.all.all fun x =>
        !(GameMechanics.beats m x && GameMechanics.beats x m)) &&
      (GameMechanics.Move.all.all fun x =>
        (x != m) == (GameMechanics.beats m x || GameMechanics.beats x m)))
      = true ∧
    (BattleSystem.moves.all fun m1 => BattleSystem.moves.all fun m2 =>
      !(BattleSystem.get_base_round_result m1 m2 == "no effect")) = true ∧
    (BattleSystem.moves.all fun m1 => BattleSystem.moves.all fun m2 =>
      (m1 != m2) ==
        (BattleSystem.does_move_win m1 m2 != BattleSystem.does_move_win m2 m1))
      = true := by
  decide

/-! ## Claim C2 -/

/-- `BattleSystem._resolve_moves` awards only non-negative points. -/
theorem resolve_moves_points_nonneg (bs : BState.BattleState)
    (m1 m2 : String) (s1 s2 : BattleSystem.Stats) :
    0 ≤ (BattleSystem.resolve_moves bs m1 m2 s1 s2).1.2.1 ∧
    0 ≤ (BattleSystem.resolve_moves bs m1 m2 s1 s2).1.2.2 := by
  unfold BattleSystem.resolve_moves
  split_ifs <;> simp [BattleSystem.calculate_damage]

/-- Claim C2 (corrected): `BattleSystem._calculate_damage` computes
exactly the specification's `max(0, W.total_damage * W.damage_multiplier *
(1 - (L.total_resistance * L.resistance_multiplier) / 100))`, it is never
negative, every points value awarded by `process_round` is non-negative,
and effective resistance at or above 100 yields zero points (given
non-negative effective damage).  The other damage path,
`Round._calculate_damage` in src/game/round.py, has no such floor and can
return negative points (see the counterexample). -/
theorem battle_damage_nonneg (a d : GameCore.Fighter)
    (wst lst : BattleSystem.Stats) (bs : BState.BattleState)
    (m1 m2 : String) (s1 s2 : BattleSystem.Stats) :
    BattleSystem.calculate_damage a d wst lst =
      BattleSystem.specPoints a d wst lst ∧
    0 ≤ BattleSystem.calculate_damage a d wst lst ∧
    0 ≤ (BattleSystem.process_round bs m1 m2 s1 s2).1.2.1 ∧
    0 ≤ (BattleSystem.process_round bs m1 m2 s1 s2).1.2.2 ∧
    (0 ≤ a.get_total_damage * wst.damage_multiplier →
      100 ≤ d.get_total_resistance * lst.resistance_multiplier →
      BattleSystem.calculate_damage a d wst lst = 0) := by
  refine ⟨?_, ?_, ?_, ?_, ?_⟩
  · unfold BattleSystem.calculate_damage BattleSystem.specPoints
    rfl
  · unfold BattleSystem.calculate_damage
    exact le_max_left 0 _
  · unfold BattleSystem.process_round
    by_cases h1 : s1.skip_round <;> by_cases h2 : s2.skip_round <;>
        simp [h1, h2, BattleSystem.calculate_damage]
    exact (resolve_moves_points_nonneg _ m1 m2 s1 s2).1
  · unfold BattleSystem.process_round
    by_cases h1 : s1.skip_round <;> by_cases h2 : s2.skip_round <;>
        simp [h1, h2, BattleSystem.calculate_damage]
    exact (resolve_moves_points_nonneg _ m1 m2 s1 s2).2
  · intro hdmg hres
    unfold BattleSystem.calculate_damage
    have hfac : (1 : ℚ) -
        d.get_total_resistance * lst.resistance_multiplier / 100 ≤ 0 := by
      linarith
    exact max_eq_left (by nlinarith)

/-- Claim C2 witness: Alice attacking Bob under a times-6 resistance
multiplier (effective resistance 180) scores zero. -/
theorem battle_damage_nonneg_witness :
    BattleSystem.calculate_damage fighterAlice fighterBob defaultStats
      highResStats = 0 :=
  (battle_damage_nonneg fighterAlice fighterBob defaultStats highResStats
    bsEx "Rush" "Rush" defaultStats defaultStats).2.2.2.2
    (by norm_num [GameCore.Fighter.get_total_damage, fighterAlice, defaultStats])
    (by norm_num [GameCore.Fighter.get_total_resistance, fighterBob, highResStats])

/-- Claim C2 counterexample: `Round._calculate_damage`
(src/game/round.py) with attacker damage 30 and a defender whose
resistance 30 carries a fixed `+80 RESISTANCE` effect returns
`round(30 * (1 - 110/100)) = -3`, a negative points value. -/
theorem pyRound_intCast (n : ℤ) : pyRound ((n : ℚ)) = n := by
  have hfl : ((n : ℚ)).floor = n := by
    have h : ((n : ℚ)).floor = ⌊(n : ℚ)⌋ := rfl
    rw [h, Int.floor_intCast]
  unfold pyRound
  norm_num [hfl]

theorem round_damage_negative_cex :
    (cexRound.calculate_damage cexAttacker cexDefender []).1 = -3 ∧
    (cexRound.calculate_damage cexAttacker cexDefender []).1 < 0 := by
  have hA : cexRound.effect_manager.get_active_effects cexAttacker.name = [] := by
    decide
  have hD : cexRound.effect_manager.get_active_effects cexDefender.name =
      [cexResistanceEffect] := by
    decide
  have hStepA : Game.applyEffectsModifiers .DAMAGE cexAttacker.damage [] [] =
      (30, [], []) := by
    decide
  have hStepD : Game.applyEffectsModifiers .RESISTANCE cexDefender.resistance
      [cexResistanceEffect] [] = (110, [cexResistanceEffect], []) := by
    decide
  have hval : ((30 : ℤ) : ℚ) * (1 - ((110 : ℤ) : ℚ) / 100) = ((-3 : ℤ) : ℚ) := by
    norm_num
  have hmain : (cexRound.calculate_damage cexAttacker cexDefender []).1 = -3 := by
    simp only [Game.Round.calculate_damage, hA, hD, hStepA, hStepD]
    rw [hval, pyRound_intCast]
  exact ⟨hmain, by rw [hmain]; norm_num⟩

/-! ## Claim C6 -/

/-- Claim C6 (confirmed): in `BattleSystem.process_round`, if both
aggregated `skip_round` flags hold the round is a scoreless mutual skip
overriding the move comparison; if exactly one side skips, the other side
wins automatically - whatever the moves - and its points are the normal
damage formula with the skipping side as defender, accumulated into its
score. -/
theorem skip_round_override (bs : BState.BattleState) (m1 m2 : String)
    (s1 s2 : BattleSystem.Stats) :
    (s1.skip_round = true → s2.skip_round = true →
      (BattleSystem.process_round bs m1 m2 s1 s2).1 =
        ("Both fighters skip (Pillz effect)", 0, 0) ∧
      (BattleSystem.process_round bs m1 m2 s1 s2).2.fighter1.score =
        bs.fighter1.score ∧
      (BattleSystem.process_round bs m1 m2 s1 s2).2.fighter2.score =
        bs.fighter2.score) ∧
    (s1.skip_round = true → s2.skip_round = false →
      (BattleSystem.process_round bs m1 m2 s1 s2).1 =
        (bs.fighter2.name ++ " wins (Opponent skipped)", 0,
         BattleSystem.calculate_damage bs.fighter2 bs.fighter1 s2 s1) ∧
      (BattleSystem.process_round bs m1 m2 s1 s2).2.fighter2.score =
        bs.fighter2.score +
          BattleSystem.calculate_damage bs.fighter2 bs.fighter1 s2 s1) ∧
    (s1.skip_round = false → s2.skip_round = true →
      (BattleSystem.process_round bs m1 m2 s1 s2).1 =
        (bs.fighter1.name ++ " wins (Opponent skipped)",
         BattleSystem.calculate_damage bs.fighter1 bs.fighter2 s1 s2, 0) ∧
      (BattleSystem.process_round bs m1 m2 s1 s2).2.fighter1.score =
        bs.fighter1.score +
          BattleSystem.calculate_damage bs.fighter1 bs.fighter2 s1 s2) := by
  refine ⟨?_, ?_, ?_⟩ <;> intro h1 h2 <;>
    simp [BattleSystem.process_round, BattleSystem.cleanup_expired_effects,
      BState.BattleState.record_move, BState.BattleState.record_result,
      GameCore.Fighter.update_effects, GameCore.Fighter.add_score, h1, h2]

/-- Claim C6 witness: with Alice skipping and Bob not, Bob wins the round
automatically and banks the damage computed against Alice. -/
theorem skip_round_override_witness :
    (BattleSystem.process_round bsEx "Rush" "Strike" skipStats
      defaultStats).1 =
      (bsEx.fighter2.name ++ " wins (Opponent skipped)", 0,
       BattleSystem.calculate_damage bsEx.fighter2 bsEx.fighter1
         defaultStats skipStats) ∧
    (BattleSystem.process_round bsEx "Rush" "Strike" skipStats
      defaultStats).2.fighter2.score =
      bsEx.fighter2.score +
        BattleSystem.calculate_damage bsEx.fighter2 bsEx.fighter1
          defaultStats skipStats :=
  (skip_round_override bsEx "Rush" "Strike" skipStats defaultStats).2.1
    rfl rfl

/-! ## Claim C7 -/

/-- Claim C7 (confirmed): `StatModifier.get_value` returns the fixed
integer amount for a non-random modifier, the reserved `-1` sentinel for
the `HALF` value - which the damage aggregation of
`Round._calculate_damage` interprets as halving the running stat rather
than adding - and, for a random modifier with bound `N`, returns the first
draw from `randint(1, N)` (hence a value in `[1, N]`), caches it, and
returns the identical cached value on every later call, except in testing
mode where every call yields a fresh draw and nothing is cached. -/
theorem stat_modifier_resolution (m : StatModifier) (d d2 : ℤ) (dmg : ℤ)
    (draws : List ℤ) :
    (m.is_random = false → ∀ n, m.value = .int n → m.get_value d = (n, m)) ∧
    (m.is_random = false → m.value = .HALF → m.get_value d = (-1, m)) ∧
    (m.is_random = false → m.value = .HALF → m.stat_type = .DAMAGE →
      Game.applyModifiers .DAMAGE dmg [m] draws =
        (Int.fdiv dmg 2, [m], draws)) ∧
    (m.is_random = true → m.testing_mode = false →
      m.cached_random_value = none →
      1 ≤ d → d ≤ randintUpper m.value →
      m.get_value d = (d, { m with cached_random_value := some d }) ∧
      1 ≤ (m.get_value d).1 ∧ (m.get_value d).1 ≤ randintUpper m.value) ∧
    (m.is_random = true → m.testing_mode = false →
      ((m.get_value d).2.get_value d2).1 = (m.get_value d).1) ∧
    (m.is_random = true → m.testing_mode = true →
      m.get_value d = (d, m) ∧ m.get_value d2 = (d2, m)) := by
  refine ⟨?_, ?_, ?_, ?_, ?_, ?_⟩
  · intro h n hv
    simp [StatModifier.get_value, h, hv]
  · intro h hv
    simp [StatModifier.get_value, h, hv]
  · intro h hv hstat
    simp [Game.applyModifiers, hstat, StatModifier.get_value_s,
      StatModifier.get_value, StatModifier.consumesDraw, h, hv]
  · intro h ht hc h1 h2
    refine ⟨?_, ?_, ?_⟩ <;> simp [StatModifier.get_value, h, ht, hc]
    · exact h1
    · exact h2
  · intro h ht
    cases hc : m.cached_random_value with
    | none => simp [StatModifier.get_value, h, ht, hc]
    | some v => simp [StatModifier.get_value, h, ht, hc]
  · intro h ht
    constructor <;> simp [StatModifier.get_value, h, ht]

/-- Claim C7 witness: the Brave random damage modifier (bound 10), given a
first draw of 7, returns 7, caches it, and stays within `[1, 10]`. -/
theorem stat_modifier_resolution_witness :
    braveModifier.get_value 7 =
      (7, { braveModifier with cached_random_value := some 7 }) ∧
    1 ≤ (braveModifier.get_value 7).1 ∧
    (braveModifier.get_value 7).1 ≤ randintUpper braveModifier.value :=
  (stat_modifier_resolution braveModifier 7 3 0 []).2.2.2.1
    rfl rfl rfl (by decide) (by decide)

/-! ## Claim C9 -/

/-- Claim C9 (confirmed): both round resolvers
(`GameRound.resolve_round` in src/game_mechanics.py and `Round.resolve`
in src/game/round.py) fail with the incomplete-selection `ValueError`
exactly when at least one side's move is unset, and on failure the
returned state is the unchanged input state: the validation precedes
every mutation of the round. -/
theorem resolve_requires_moves (g : GameMechanics.GameRound)
    (r : Game.Round) (made1 made2 : Effect) (draws : List ℤ) :
    ((g.move1 = none ∨ g.move2 = none) ↔
      g.resolve_round =
        (g, .error "Moves must be set before resolving round")) ∧
    ((r.state.fighter1_move = none ∨ r.state.fighter2_move = none) ↔
      r.resolve made1 made2 draws =
        (r, .error "Both fighters must select moves before resolution")) := by
  constructor
  · cases hm1 : g.move1 <;> cases hm2 : g.move2 <;>
      simp [GameMechanics.GameRound.resolve_round, hm1, hm2] <;>
      split_ifs <;> simp
  · cases hm1 : r.state.fighter1_move <;> cases hm2 : r.state.fighter2_move <;>
      simp [Game.Round.resolve, hm1, hm2]

/-! ## Claim C10 -/

/-- A fresh battle state satisfies the invariant. -/
theorem inv_init (f1 f2 : GameCore.Fighter) :
    BState.Inv (BState.BattleState.init f1 f2) := by
  refine ⟨?_, ?_, rfl, rfl, ?_⟩ <;> simp [BState.BattleState.init, BState.Inv]

/-- Each externally driven operation preserves the invariant. -/
theorem inv_applyOp (s : BState.BattleState) (op : BState.BOp)
    (h : BState.Inv s) : BState.Inv (BState.applyOp s op) := by
  obtain ⟨h1, h2, h3, h4, h5⟩ := h
  cases op with
  | recordMove isF1 m =>
    cases isF1 <;> exact ⟨h1, h2, h3, h4, h5⟩
  | recordEffect isF1 e =>
    cases isF1 <;> exact ⟨h1, h2, h3, h4, h5⟩
  | recordResult res p1 p2 =>
    refine ⟨h1, h2, h3, h4, ?_⟩
    intro rs hrs
    simp [BState.applyOp, BState.BattleState.record_result,
      List.mem_append] at hrs
    rcases hrs with hrs | hrs
    · exact h5 rs hrs
    · rw [hrs]
      simp only []
      constructor
      · rw [h4]
        exact h1
      · rw [h4]
        omega
  | advanceRound =>
    simp only [BState.applyOp, BState.BattleState.advance_round]
    by_cases hc : s.max_rounds ≤ s.current_round
    · simp only [hc, if_pos]
      exact ⟨h1, h2, h3, h4, h5⟩
    · simp only [hc, if_neg, not_false_iff]
      refine ⟨?_, ?_, h3, rfl, h5⟩
      · show 1 ≤ s.current_round + 1
        omega
      · show s.current_round + 1 ≤ s.max_rounds
        omega

/-- Running any sequence of operations preserves the invariant. -/
theorem inv_runOps (ops : List BState.BOp) (s : BState.BattleState)
    (h : BState.Inv s) : BState.Inv (BState.runOps s ops) := by
  induction ops generalizing s with
  | nil => exact h
  | cons op rest ih => exact ih _ (inv_applyOp s op h)

/-- Claim C10 (confirmed): from a fresh battle, after any sequence of
recorded moves, effects, results, and round advances, the round counter
and every recorded round number stay within `1..6`
(`max_rounds = 6`), and `advance_round` at the cap returns `False`
leaving the state unchanged. -/
theorem battle_capped_at_six (f1 f2 : GameCore.Fighter)
    (ops : List BState.BOp) :
    1 ≤ (BState.runOps (BState.BattleState.init f1 f2) ops).current_round ∧
    (BState.runOps (BState.BattleState.init f1 f2) ops).current_round ≤ 6 ∧
    (∀ rs ∈ (BState.runOps (BState.BattleState.init f1 f2) ops).round_history,
      1 ≤ rs.round_number ∧ rs.round_number ≤ 6) ∧
    (∀ t : BState.BattleState, t.max_rounds ≤ t.current_round →
      t.advance_round = (t, false)) := by
  obtain ⟨h1, h2, h3, h4, h5⟩ := inv_runOps ops _ (inv_init f1 f2)
  refine ⟨h1, h3 ▸ h2, h5, ?_⟩
  intro t ht
  simp [BState.BattleState.advance_round, ht]

/-- Claim C10 witness: after six `advance_round` calls the counter sits
at the cap and a further `advance_round` returns `False` without change. -/
theorem battle_capped_at_six_witness :
    (BState.runOps (BState.BattleState.init fighterAlice fighterBob)
      (List.replicate 6 BState.BOp.advanceRound)).current_round ≤ 6 ∧
    (BState.runOps (BState.BattleState.init fighterAlice fighterBob)
      (List.replicate 6 BState.BOp.advanceRound)).advance_round =
      (BState.runOps (BState.BattleState.init fighterAlice fighterBob)
        (List.replicate 6 BState.BOp.advanceRound), false) :=
  ⟨(battle_capped_at_six fighterAlice fighterBob
      (List.replicate 6 BState.BOp.advanceRound)).2.1,
   (battle_capped_at_six fighterAlice fighterBob
      (List.replicate 6 BState.BOp.advanceRound)).2.2.2 _ (by decide)⟩
